import Mathlib

/-!
Verification of the EssentialsCode diagnostic parser (src/parser.rs) and
the raw-text remediation fallback (src/fixer.rs).

Strings are modelled as `List Char`.  Each regular expression of the source
is embedded as an executable matcher with the regex crate's leftmost-first
semantics: `findCaps m input` scans the start positions of `input` from the
left and returns the captures of the first position where the
position-matcher `m` succeeds.  Every position-matcher below is
deterministic at a given start position, because in each source pattern a
greedy repetition class (`[^…]+`, `\d+`, `\w+`) is always followed by a
character the class excludes, so the repetition is forced to its maximal
run and no backtracking into it can succeed.  Character classes (`\s`,
`\w`, `\d`, lower-casing) are modelled on their ASCII fragment, which is
the fragment the source's diagnostics exercise.
-/

namespace EssentialsCode

/-- The characters of a string literal. -/
def lit (s : String) : List Char := s.toList

/-- ASCII lower-casing, as applied by `str::to_lowercase` on ASCII text. -/
def toLowerStr (l : List Char) : List Char := l.map Char.toLower

/-- `hay.contains(needle)` of Rust: `needle` occurs as a contiguous substring. -/
def containsSub (hay needle : List Char) : Bool :=
  match hay with
  | [] => needle.isEmpty
  | _ :: t => needle.isPrefixOf hay || containsSub t needle

/-- Consume the literal `pre` at the front, or fail. -/
def dropLit (pre l : List Char) : Option (List Char) :=
  if pre.isPrefixOf l then some (l.drop pre.length) else none

/-- Consume one expected character at the front, or fail. -/
def dropChar (c : Char) (l : List Char) : Option (List Char) :=
  match l with
  | [] => none
  | x :: rest => if x == c then some rest else none

/-- The maximal run of characters satisfying `p` at the front, and the rest. -/
def takeRun (p : Char → Bool) : List Char → List Char × List Char
  | [] => ([], [])
  | c :: rest =>
    if p c then
      let (run, r) := takeRun p rest
      (c :: run, r)
    else ([], c :: rest)

/-- A greedy `X+` over the class `p`: the maximal run, required nonempty. -/
def takeRun1 (p : Char → Bool) (l : List Char) : Option (List Char × List Char) :=
  match takeRun p l with
  | ([], _) => none
  | (run, rest) => some (run, rest)

/-- A trailing `(.+)`: the maximal nonempty run of non-newline characters. -/
def dotPlusToEol (l : List Char) : Option (List Char) :=
  match takeRun1 (fun c => !(c == '\n')) l with
  | some (run, _) => some run
  | none => none

/-- Leftmost match: try the position-matcher at each start, left to right. -/
def findCaps {α : Type} (m : List Char → Option α) : List Char → Option α
  | [] => m []
  | c :: rest =>
    match m (c :: rest) with
    | some r => some r
    | none => findCaps m rest

/-- Numeric value of a digit string. -/
def digitsToNat (l : List Char) : Nat :=
  l.foldl (fun acc c => 10 * acc + (c.toNat - 48)) 0

/-- `str::parse::<u32>().ok()` on a captured digit string: the value when it
fits in 32 bits, `none` on overflow. -/
def parseU32 (ds : List Char) : Option Nat :=
  if digitsToNat ds < 4294967296 then some (digitsToNat ds) else none

/-- ASCII fragment of the regex class `\s`. -/
def isSpaceChar (c : Char) : Bool :=
  c == ' ' || c == '\t' || c == '\n' || c == '\r' || c == '\x0b' || c == '\x0c'

/-- ASCII fragment of the regex class `\w`. -/
def isWordChar (c : Char) : Bool := c.isAlphanum || c == '_'

/-- Split a run `r` of class characters as `stem ++ [dot] ++ ext` with
`ext ∈ exts` and `stem` nonempty, preferring the longest stem (the greedy
reading of `[^…]+\.(e1|e2|…)` when the character after the whole group is
excluded from the class). Returns the extension. -/
def lastDotExt (r : List Char) (exts : List (List Char)) : Option (List Char) :=
  (List.range r.length).reverse.findSome? fun k =>
    if k ≠ 0 ∧ (r.drop k).head? = some '.' ∧ (r.drop (k + 1)) ∈ exts then
      some (r.drop (k + 1))
    else none

/-- A matched file token: the whole group (stem, dot and extension) and the
extension group. -/
structure FileToken where
  file : List Char
  ext : List Char
deriving Repr, DecidableEq

/-- Match `([^class]+\.(e1|e2|…))` at the front, where the token is followed
by a character outside the class (so the group is the maximal class run). -/
def fileTokenAt (allowed : Char → Bool) (exts : List (List Char)) (l : List Char) :
    Option (FileToken × List Char) :=
  match takeRun1 allowed l with
  | none => none
  | some (run, rest) =>
    match lastDotExt run exts with
    | none => none
    | some e => some (⟨run, e⟩, rest)

/-! ## The regexes of src/parser.rs, as position-matchers -/

/-- The extension alternation of the C++ file regex, in source order. -/
def cppExts : List (List Char) := [lit "cpp", lit "cc", lit "cxx", lit "c", lit "h", lit "hpp"]

/-- Captures of `([^\s:]+\.(cpp|cc|cxx|c|h|hpp)):(\d+):(\d+): error: (.+)`. -/
structure CppCaps where
  file : List Char
  lineDigits : List Char
  colDigits : List Char
  message : List Char
deriving Repr, DecidableEq

/-- Position-matcher for the C++ error-line regex. -/
def cppMatchAt (l : List Char) : Option CppCaps := do
  let (ft, r1) ← fileTokenAt (fun c => !(isSpaceChar c || c == ':')) cppExts l
  let r2 ← dropChar ':' r1
  let (lds, r3) ← takeRun1 Char.isDigit r2
  let r4 ← dropChar ':' r3
  let (cds, r5) ← takeRun1 Char.isDigit r4
  let r6 ← dropLit (lit ": error: ") r5
  let msg ← dotPlusToEol r6
  pure ⟨ft.file, lds, cds, msg⟩

/-- Leftmost captures of the C++ error-line regex (`re.captures(input)`). -/
def cppCaptures (input : List Char) : Option CppCaps := findCaps cppMatchAt input

/-- Position-matcher for `#include <([^>]+)>`, returning the header group. -/
def includeMatchAt (l : List Char) : Option (List Char) := do
  let r1 ← dropLit (lit "#include <") l
  let (h, r2) ← takeRun1 (fun c => !(c == '>')) r1
  let _ ← dropChar '>' r2
  pure h

/-- Position-matcher for the C++ undeclared-identifier regex
`'([^']+)' was not declared|use of undeclared identifier '([^']+)'`,
returning the group that matched (`cap.get(1).or(cap.get(2))`). -/
def undeclAt (l : List Char) : Option (List Char) :=
  match (do
    let r1 ← dropChar '\'' l
    let (v, r2) ← takeRun1 (fun c => !(c == '\'')) r1
    let _ ← dropLit (lit "' was not declared") r2
    pure v : Option (List Char)) with
  | some v => some v
  | none => do
    let r1 ← dropLit (lit "use of undeclared identifier '") l
    let (v, r2) ← takeRun1 (fun c => !(c == '\'')) r1
    let _ ← dropChar '\'' r2
    pure v

/-- Captures of the Python file/line marker `File "([^"]+\.py)", line (\d+)`. -/
structure PyFileCaps where
  file : List Char
  lineDigits : List Char
deriving Repr, DecidableEq

/-- Position-matcher for the Python file/line marker regex. -/
def pyFileMatchAt (l : List Char) : Option PyFileCaps := do
  let r1 ← dropLit (lit "File \"") l
  let (run, r2) ← takeRun1 (fun c => !(c == '"')) r1
  if (lit ".py").isSuffixOf run ∧ 4 ≤ run.length then
    let r3 ← dropChar '"' r2
    let r4 ← dropLit (lit ", line ") r3
    let (ds, _) ← takeRun1 Char.isDigit r4
    pure ⟨run, ds⟩
  else none

/-- The nine literal alternatives of the Python error-name regex, in source
order; the tenth alternative `requests\.exceptions\.\w+` is handled by
`pyErrorMatchAt`. -/
def pyErrorNames : List (List Char) :=
  [lit "SyntaxError", lit "IndentationError", lit "NameError", lit "ImportError",
   lit "TypeError", lit "ModuleNotFoundError", lit "KeyError", lit "AttributeError",
   lit "ValueError"]

/-- Position-matcher for the Python error regex
`(SyntaxError|…|ValueError|requests\.exceptions\.\w+): (.+)`: the name group
and the detail group.  No alternative is a prefix of another, so at a
position at most one alternative can match the text. -/
def pyErrorMatchAt (l : List Char) : Option (List Char × List Char) :=
  match pyErrorNames.findSome? (fun n => (dropLit n l).map (fun r => (n, r))) with
  | some (n, r) => do
    let r2 ← dropLit (lit ": ") r
    let d ← dotPlusToEol r2
    pure (n, d)
  | none => do
    let r1 ← dropLit (lit "requests.exceptions.") l
    let (w, r2) ← takeRun1 isWordChar r1
    let r3 ← dropLit (lit ": ") r2
    let d ← dotPlusToEol r3
    pure (lit "requests.exceptions." ++ w, d)

/-- Position-matcher for `requests\.exceptions\.(\w+): (.+)`: the exception
name group and the detail group. -/
def requestsMatchAt (l : List Char) : Option (List Char × List Char) := do
  let r1 ← dropLit (lit "requests.exceptions.") l
  let (w, r2) ← takeRun1 isWordChar r1
  let r3 ← dropLit (lit ": ") r2
  let d ← dotPlusToEol r3
  pure (w, d)

/-- Position-matcher for `name '([^']+)' is not defined` (NameError detail). -/
def nameVarAt (l : List Char) : Option (List Char) := do
  let r1 ← dropLit (lit "name '") l
  let (v, r2) ← takeRun1 (fun c => !(c == '\'')) r1
  let _ ← dropLit (lit "' is not defined") r2
  pure v

/-- Position-matcher for `No module named '([^']+)'` (ImportError detail). -/
def modNameAt (l : List Char) : Option (List Char) := do
  let r1 ← dropLit (lit "No module named '") l
  let (v, r2) ← takeRun1 (fun c => !(c == '\'')) r1
  let _ ← dropChar '\'' r2
  pure v

/-- The extension alternation of the generic JS/TS file regex, in source order. -/
def jsExts : List (List Char) := [lit "js", lit "ts", lit "jsx", lit "tsx", lit "mjs"]

/-- Captures of `([^\s:]+\.(js|ts|jsx|tsx|mjs)):(\d+)(?::(\d+))?`. -/
structure JsFileCaps where
  file : List Char
  ext : List Char
  lineDigits : List Char
  colDigits : Option (List Char)
deriving Repr, DecidableEq

/-- Position-matcher for the generic JS/TS file-token regex.  The optional
column group is greedy: it matches exactly when a colon and at least one
digit follow the line group. -/
def jsFileMatchAt (l : List Char) : Option JsFileCaps := do
  let (ft, r1) ← fileTokenAt (fun c => !(isSpaceChar c || c == ':')) jsExts l
  let r2 ← dropChar ':' r1
  let (lds, r3) ← takeRun1 Char.isDigit r2
  let col : Option (List Char) := do
    let r4 ← dropChar ':' r3
    let (cds, _) ← takeRun1 Char.isDigit r4
    pure cds
  pure ⟨ft.file, ft.ext, lds, col⟩

/-- The three literal alternatives of the JS error-name regex, in source order. -/
def jsErrorNames : List (List Char) :=
  [lit "SyntaxError", lit "TypeError", lit "ReferenceError"]

/-- Position-matcher for `(SyntaxError|TypeError|ReferenceError): (.+)`. -/
def jsErrorMatchAt (l : List Char) : Option (List Char × List Char) := do
  let (n, r) ← jsErrorNames.findSome? (fun n => (dropLit n l).map (fun r => (n, r)))
  let r2 ← dropLit (lit ": ") r
  let d ← dotPlusToEol r2
  pure (n, d)

/-- The extension alternation of the TypeScript-specific regex, in source order. -/
def tsExts : List (List Char) := [lit "ts", lit "tsx"]

/-- Captures of `([^\s(]+\.(ts|tsx))\((\d+),(\d+)\): error (TS\d+): (.+)`;
`code` is the whole fifth group (`TS` and its digits). -/
structure TsCaps where
  file : List Char
  lineDigits : List Char
  colDigits : List Char
  code : List Char
  message : List Char
deriving Repr, DecidableEq

/-- Position-matcher for the TypeScript-specific error regex. -/
def tsMatchAt (l : List Char) : Option TsCaps := do
  let (ft, r1) ← fileTokenAt (fun c => !(isSpaceChar c || c == '(')) tsExts l
  let r2 ← dropChar '(' r1
  let (lds, r3) ← takeRun1 Char.isDigit r2
  let r4 ← dropChar ',' r3
  let (cds, r5) ← takeRun1 Char.isDigit r4
  let r6 ← dropLit (lit "): error TS") r5
  let (codeDigits, r7) ← takeRun1 Char.isDigit r6
  let r8 ← dropLit (lit ": ") r7
  let msg ← dotPlusToEol r8
  pure ⟨ft.file, lds, cds, lit "TS" ++ codeDigits, msg⟩

/-- Position-matcher for `Cannot find name '([^']+)'` (TS2304/TS2552 detail). -/
def tsNameVarAt (l : List Char) : Option (List Char) := do
  let r1 ← dropLit (lit "Cannot find name '") l
  let (v, r2) ← takeRun1 (fun c => !(c == '\'')) r1
  let _ ← dropChar '\'' r2
  pure v

/-- Position-matcher for `(\w+) is not defined` (ReferenceError detail). -/
def refVarAt (l : List Char) : Option (List Char) := do
  let (w, r) ← takeRun1 isWordChar l
  let _ ← dropLit (lit " is not defined") r
  pure w

/-- Position-matcher for the Rust error-line regex `error\[E\d+\]: (.+)`,
returning the message group. -/
def rustErrAt (l : List Char) : Option (List Char) := do
  let r1 ← dropLit (lit "error[E") l
  let (_, r2) ← takeRun1 Char.isDigit r1
  let r3 ← dropLit (lit "]: ") r2
  dotPlusToEol r3

/-- Captures of the Rust location regex `--> ([^:]+):(\d+):(\d+)`. -/
structure RustLocCaps where
  file : List Char
  lineDigits : List Char
  colDigits : List Char
deriving Repr, DecidableEq

/-- Position-matcher for the Rust location regex. -/
def rustLocAt (l : List Char) : Option RustLocCaps := do
  let r1 ← dropLit (lit "--> ") l
  let (f, r2) ← takeRun1 (fun c => !(c == ':')) r1
  let r3 ← dropChar ':' r2
  let (lds, r4) ← takeRun1 Char.isDigit r3
  let r5 ← dropChar ':' r4
  let (cds, _) ← takeRun1 Char.isDigit r5
  pure ⟨f, lds, cds⟩

/-- The backtick character (x60), written by code point. -/
def btick : Char := Char.ofNat 96

/-- Position-matcher for the Rust cannot-find regex, whose identifier group
stands between backticks after `cannot find value ` or `cannot find type `. -/
def rustVarAt (l : List Char) : Option (List Char) := do
  let r1 ← dropLit (lit "cannot find ") l
  let r2 ← match dropLit (lit "value ") r1 with
    | some r => some r
    | none => dropLit (lit "type ") r1
  let r3 ← dropChar btick r2
  let (v, r4) ← takeRun1 (fun c => !(c == btick)) r3
  let _ ← dropChar btick r4
  pure v

/-! ## The data model of src/parser.rs -/

/-- The `ErrorType` enum of src/parser.rs. -/
inductive ErrorType where
  | MissingInclude (header : List Char)
  | MissingSemicolon
  | UndeclaredVariable (name : List Char)
  | SyntaxError (detail : List Char)
  | IndentationError
  | ImportError (module : List Char)
  | TypeError (detail : List Char)
  | ModuleNotFound (module : List Char)
  | BorrowError (detail : List Char)
  | KeyError (key : List Char)
  | AttributeError (detail : List Char)
  | ValueError (detail : List Char)
  | MissingEnvVar (detail : List Char)
  | RequestsError (detail : List Char)
  | Unknown (message : List Char)
deriving Repr, DecidableEq

/-- The `Language` enum of src/parser.rs. -/
inductive Language where
  | Cpp
  | Python
  | JavaScript
  | TypeScript
  | Rust
  | Unknown
deriving Repr, DecidableEq

/-- The `ParsedError` record of src/parser.rs; `line` and `column` model
`Option<u32>` as optional naturals below 2^32. -/
structure ParsedError where
  file : List Char
  line : Option Nat
  column : Option Nat
  message : List Char
  error_type : ErrorType
  language : Language
deriving Repr, DecidableEq

/-! ## The extractors of src/parser.rs -/

/-- The tail of `detect_cpp_error_type` after the missing-include block:
the semicolon check, then the undeclared-identifier regex on the
lower-cased message `msg`, then the `Unknown` fallback. -/
def detect_cpp_rest (message msg : List Char) : ErrorType :=
  if containsSub msg (lit "expected ';'") || containsSub msg (lit "expected ';' before") then
    ErrorType.MissingSemicolon
  else
    match findCaps undeclAt msg with
    | some v => ErrorType.UndeclaredVariable v
    | none => ErrorType.Unknown message

/-- `detect_cpp_error_type(message, full)` of src/parser.rs. -/
def detect_cpp_error_type (message full : List Char) : ErrorType :=
  let msg := toLowerStr message
  if containsSub msg (lit "is not a member of 'std'") || containsSub msg (lit "was not declared") then
    match findCaps includeMatchAt full with
    | some h => ErrorType.MissingInclude h
    | none =>
      if containsSub msg (lit "vector") then ErrorType.MissingInclude (lit "vector")
      else if containsSub msg (lit "string") then ErrorType.MissingInclude (lit "string")
      else if containsSub msg (lit "cout") || containsSub msg (lit "cin") then
        ErrorType.MissingInclude (lit "iostream")
      else if containsSub msg (lit "map") then ErrorType.MissingInclude (lit "map")
      else if containsSub msg (lit "set") then ErrorType.MissingInclude (lit "set")
      else detect_cpp_rest message msg
  else detect_cpp_rest message msg

/-- `parse_cpp_error(input)` of src/parser.rs; a line or column that does
not parse as `u32` makes the whole extractor return `none` (the `?`
operator). -/
def parse_cpp_error (input : List Char) : Option ParsedError :=
  match cppCaptures input with
  | none => none
  | some cap =>
    match parseU32 cap.lineDigits, parseU32 cap.colDigits with
    | some line, some col =>
      some { file := cap.file, line := some line, column := some col,
             message := cap.message,
             error_type := detect_cpp_error_type cap.message input,
             language := Language.Cpp }
    | _, _ => none

/-- `parse_python_error(input)` of src/parser.rs.  The requests branch is
taken first; in it a missing file marker yields the file `unknown.py` and
no line, and a file marker whose line overflows `u32` yields no line.  The
generic branch needs both the file marker and an error line, and an
overflowing line makes the extractor return `none` (the `?` operator). -/
def parse_python_error (input : List Char) : Option ParsedError :=
  let file_cap := findCaps pyFileMatchAt input
  let error_cap := findCaps pyErrorMatchAt input
  match findCaps requestsMatchAt input with
  | some (error_name, details) =>
    let error_type :=
      if error_name == lit "MissingSchema" || containsSub details (lit "None") then
        ErrorType.MissingEnvVar details
      else
        ErrorType.RequestsError (error_name ++ lit ": " ++ details)
    let file := match file_cap with
      | some fc => fc.file
      | none => lit "unknown.py"
    let line := file_cap.bind (fun fc => parseU32 fc.lineDigits)
    some { file := file, line := line, column := none,
           message := lit "requests.exceptions." ++ error_name ++ lit ": " ++ details,
           error_type := error_type, language := Language.Python }
  | none =>
    match file_cap, error_cap with
    | some fc, some (error_name, details) =>
      match parseU32 fc.lineDigits with
      | none => none
      | some line =>
        let error_type :=
          if error_name == lit "SyntaxError" then ErrorType.SyntaxError details
          else if error_name == lit "IndentationError" then ErrorType.IndentationError
          else if error_name == lit "NameError" then
            match findCaps nameVarAt details with
            | some v => ErrorType.UndeclaredVariable v
            | none => ErrorType.Unknown details
          else if error_name == lit "ImportError" || error_name == lit "ModuleNotFoundError" then
            match findCaps modNameAt details with
            | some m => ErrorType.ImportError m
            | none => ErrorType.ImportError details
          else if error_name == lit "TypeError" then ErrorType.TypeError details
          else if error_name == lit "KeyError" then ErrorType.KeyError details
          else if error_name == lit "AttributeError" then ErrorType.AttributeError details
          else if error_name == lit "ValueError" then ErrorType.ValueError details
          else ErrorType.Unknown details
        some { file := fc.file, line := some line, column := none,
               message := error_name ++ lit ": " ++ details,
               error_type := error_type, language := Language.Python }
    | _, _ => none

/-- The generic branch of `parse_js_error` (src/parser.rs lines 270-313):
both the file-token regex and the error-name regex must match somewhere in
the input; an overflowing line makes the branch return `none` (the `?`
operator), while an overflowing optional column only drops the column
(`and_then(… parse().ok())`). -/
def jsGeneric (input : List Char) : Option ParsedError :=
  match findCaps jsFileMatchAt input with
  | some file_cap =>
    match findCaps jsErrorMatchAt input with
    | some (error_name, details) =>
      match parseU32 file_cap.lineDigits with
      | none => none
      | some line =>
        let col := file_cap.colDigits.bind parseU32
        let language :=
          if file_cap.ext == lit "ts" || file_cap.ext == lit "tsx" then Language.TypeScript
          else Language.JavaScript
        let error_type :=
          if error_name == lit "SyntaxError" then ErrorType.SyntaxError details
          else if error_name == lit "ReferenceError" then
            match findCaps refVarAt details with
            | some v => ErrorType.UndeclaredVariable v
            | none => ErrorType.Unknown details
          else if error_name == lit "TypeError" then ErrorType.TypeError details
          else ErrorType.Unknown details
        some { file := file_cap.file, line := some line, column := col,
               message := error_name ++ lit ": " ++ details,
               error_type := error_type, language := language }
    | none => none
  | none => none

/-- `parse_js_error(input)` of src/parser.rs: the TypeScript-specific regex
is tried first; when it matches, the generic branch is never consulted,
and an overflowing line or column makes the extractor return `none`. -/
def parse_js_error (input : List Char) : Option ParsedError :=
  match findCaps tsMatchAt input with
  | some cap =>
    match parseU32 cap.lineDigits, parseU32 cap.colDigits with
    | some line, some col =>
      let error_type :=
        if cap.code == lit "TS2304" || cap.code == lit "TS2552" then
          match findCaps tsNameVarAt cap.message with
          | some v => ErrorType.UndeclaredVariable v
          | none => ErrorType.Unknown cap.message
        else if cap.code == lit "TS2307" then ErrorType.ModuleNotFound cap.message
        else ErrorType.Unknown cap.message
      some { file := cap.file, line := some line, column := some col,
             message := cap.code ++ lit ": " ++ cap.message,
             error_type := error_type, language := Language.TypeScript }
    | _, _ => none
  | none => jsGeneric input

/-- `parse_rust_error(input)` of src/parser.rs: both the error-line regex
and the location regex must match; `cannot find` is checked before
`borrow`, and inside the `cannot find` branch a failing identifier regex
yields `Unknown`, not `BorrowError`. -/
def parse_rust_error (input : List Char) : Option ParsedError :=
  match findCaps rustErrAt input, findCaps rustLocAt input with
  | some message, some loc =>
    match parseU32 loc.lineDigits, parseU32 loc.colDigits with
    | some line, some col =>
      let error_type :=
        if containsSub message (lit "cannot find") then
          match findCaps rustVarAt message with
          | some v => ErrorType.UndeclaredVariable v
          | none => ErrorType.Unknown message
        else if containsSub message (lit "borrow") then ErrorType.BorrowError message
        else ErrorType.Unknown message
      some { file := loc.file, line := some line, column := some col,
             message := message, error_type := error_type, language := Language.Rust }
    | _, _ => none
  | _, _ => none

/-- `parse_error(input)` of src/parser.rs: the extractors in the fixed
order C++, Python, JavaScript/TypeScript, Rust, first `Some` wins. -/
def parse_error (input : List Char) : Option ParsedError :=
  match parse_cpp_error input with
  | some err => some err
  | none =>
    match parse_python_error input with
    | some err => some err
    | none =>
      match parse_js_error input with
      | some err => some err
      | none =>
        match parse_rust_error input with
        | some err => some err
        | none => none

/-! ## The raw-text fallback of src/fixer.rs -/

/-- The canned instruction of the missing-semicolon rule. -/
def semicolonMsg : List Char := lit "Add a semicolon (;) at the end of the line."

/-- The canned instruction of the missing-import rule. -/
def importMsg : List Char :=
  lit "You're using something that hasn't been imported/included.\nAdd the appropriate #include or import statement at the top of your file."

/-- The canned instruction of the undefined-variable rule. -/
def undefinedMsg : List Char :=
  lit "Variable is not defined.\nEither declare it before using, or check for typos in the name."

/-- The canned instruction of the syntax-error rule. -/
def syntaxMsg : List Char :=
  lit "Syntax error - check for:\n• Missing or extra brackets \x7b \x7d [ ] ( )\n• Unclosed strings\n• Missing semicolons or commas"

/-- `try_common_patterns(error_text)` of src/fixer.rs: four ordered
substring checks against the lower-cased text, first match wins. -/
def try_common_patterns (error_text : List Char) : Option (List Char) :=
  let lower := toLowerStr error_text
  if containsSub lower (lit "expected ';'") || containsSub lower (lit "missing semicolon") then
    some semicolonMsg
  else if containsSub lower (lit "is not a member of") || containsSub lower (lit "was not declared") then
    some importMsg
  else if containsSub lower (lit "is not defined") || containsSub lower (lit "undeclared") then
    some undefinedMsg
  else if containsSub lower (lit "unexpected token") || containsSub lower (lit "was never closed") then
    some syntaxMsg
  else
    none

/-! ## Claims -/

/-- C1: `parse_error` returns the result of the first extractor, in the
fixed order C++, Python, JavaScript/TypeScript, Rust, that returns `some`;
it returns `none` iff all four extractors return `none`; in particular a
text on which both the C++ extractor and a lower-priority extractor
succeed resolves to the C++ extractor's diagnostic. -/
theorem parse_error_first_extractor (input : List Char) :
    (parse_cpp_error input ≠ none → parse_error input = parse_cpp_error input)
  ∧ (parse_cpp_error input = none → parse_python_error input ≠ none →
      parse_error input = parse_python_error input)
  ∧ (parse_cpp_error input = none → parse_python_error input = none →
      parse_js_error input ≠ none → parse_error input = parse_js_error input)
  ∧ (parse_cpp_error input = none → parse_python_error input = none →
      parse_js_error input = none → parse_error input = parse_rust_error input)
  ∧ (parse_error input = none ↔
      parse_cpp_error input = none ∧ parse_python_error input = none ∧
      parse_js_error input = none ∧ parse_rust_error input = none) := by
  unfold parse_error
  cases parse_cpp_error input <;> cases parse_python_error input <;>
    cases parse_js_error input <;> cases parse_rust_error input <;> simp

/-- Witness for C1: a text matched by both the C++ and the Rust extractor
resolves to the C++ result. -/
theorem parse_error_first_extractor_witness :
    parse_rust_error (lit "main.cpp:1:2: error: boom\nerror[E0001]: borrow here\n --> a.rs:3:4") ≠ none ∧
    parse_error (lit "main.cpp:1:2: error: boom\nerror[E0001]: borrow here\n --> a.rs:3:4") =
      parse_cpp_error (lit "main.cpp:1:2: error: boom\nerror[E0001]: borrow here\n --> a.rs:3:4") :=
  ⟨by decide,
   (parse_error_first_extractor
     (lit "main.cpp:1:2: error: boom\nerror[E0001]: borrow here\n --> a.rs:3:4")).1 (by decide)⟩

/-- C2 counterexample: a requests line with no `File "….py", line n` marker
still yields a Python diagnostic, so the Python extractor does not require
the marker. -/
theorem python_marker_counterexample :
    findCaps pyFileMatchAt (lit "requests.exceptions.Timeout: request timed out") = none ∧
    parse_python_error (lit "requests.exceptions.Timeout: request timed out") ≠ none := by
  decide

/-- C2 amended: an input on which neither the file/line-marker regex nor the
`requests.exceptions` regex matches yields no Python diagnostic. -/
theorem python_none_without_marker_or_requests (input : List Char)
    (hfile : findCaps pyFileMatchAt input = none)
    (hreq : findCaps requestsMatchAt input = none) :
    parse_python_error input = none := by
  simp [parse_python_error, hfile, hreq]

/-- Witness for the amended C2 on a markerless text. -/
theorem python_none_without_marker_or_requests_witness :
    findCaps pyFileMatchAt (lit "hello world") = none ∧
    findCaps requestsMatchAt (lit "hello world") = none ∧
    parse_python_error (lit "hello world") = none :=
  ⟨by decide, by decide,
   python_none_without_marker_or_requests (lit "hello world") (by decide) (by decide)⟩

/-- C3: in the C++ missing-include sub-classification (a message containing
`is not a member of 'std'` or `was not declared` once lower-cased), an
`#include <H>` captured in the full text wins and gives `MissingInclude H`;
otherwise the lower-cased message is tested for the tokens vector, string,
cout/cin, map, set in exactly that order and the first token present
decides the header. -/
theorem cpp_missing_include_order (message full : List Char)
    (hguard : containsSub (toLowerStr message) (lit "is not a member of 'std'") = true ∨
              containsSub (toLowerStr message) (lit "was not declared") = true) :
    (∀ h, findCaps includeMatchAt full = some h →
        detect_cpp_error_type message full = ErrorType.MissingInclude h)
  ∧ (findCaps includeMatchAt full = none →
      (containsSub (toLowerStr message) (lit "vector") = true →
          detect_cpp_error_type message full = ErrorType.MissingInclude (lit "vector"))
    ∧ (containsSub (toLowerStr message) (lit "vector") = false →
       containsSub (toLowerStr message) (lit "string") = true →
          detect_cpp_error_type message full = ErrorType.MissingInclude (lit "string"))
    ∧ (containsSub (toLowerStr message) (lit "vector") = false →
       containsSub (toLowerStr message) (lit "string") = false →
       (containsSub (toLowerStr message) (lit "cout") = true ∨
        containsSub (toLowerStr message) (lit "cin") = true) →
          detect_cpp_error_type message full = ErrorType.MissingInclude (lit "iostream"))
    ∧ (containsSub (toLowerStr message) (lit "vector") = false →
       containsSub (toLowerStr message) (lit "string") = false →
       containsSub (toLowerStr message) (lit "cout") = false →
       containsSub (toLowerStr message) (lit "cin") = false →
       containsSub (toLowerStr message) (lit "map") = true →
          detect_cpp_error_type message full = ErrorType.MissingInclude (lit "map"))
    ∧ (containsSub (toLowerStr message) (lit "vector") = false →
       containsSub (toLowerStr message) (lit "string") = false →
       containsSub (toLowerStr message) (lit "cout") = false →
       containsSub (toLowerStr message) (lit "cin") = false →
       containsSub (toLowerStr message) (lit "map") = false →
       containsSub (toLowerStr message) (lit "set") = true →
          detect_cpp_error_type message full = ErrorType.MissingInclude (lit "set"))) := by
  have hg : (containsSub (toLowerStr message) (lit "is not a member of 'std'") ||
      containsSub (toLowerStr message) (lit "was not declared")) = true := by
    rcases hguard with h | h <;> simp [h]
  constructor
  · intro h hh
    simp [detect_cpp_error_type, hg, hh]
  · intro hnone
    refine ⟨fun h1 => ?_, fun h1 h2 => ?_, fun h1 h2 h3 => ?_,
            fun h1 h2 h3 h4 h5 => ?_, fun h1 h2 h3 h4 h5 h6 => ?_⟩
    · simp [detect_cpp_error_type, hg, hnone, h1]
    · simp [detect_cpp_error_type, hg, hnone, h1, h2]
    · rcases h3 with h3 | h3 <;>
        simp [detect_cpp_error_type, hg, hnone, h1, h2, h3]
    · simp [detect_cpp_error_type, hg, hnone, h1, h2, h3, h4, h5]
    · simp [detect_cpp_error_type, hg, hnone, h1, h2, h3, h4, h5, h6]

/-- Witness for C3: a message containing both "string" and "map" (and no
explicit include in the full text) yields `MissingInclude "string"`. -/
theorem cpp_missing_include_order_witness :
    detect_cpp_error_type (lit "'string' was not declared, check your map")
        (lit "x.cpp: no includes here")
      = ErrorType.MissingInclude (lit "string") :=
  ((cpp_missing_include_order (lit "'string' was not declared, check your map")
      (lit "x.cpp: no includes here") (Or.inr (by decide))).2
    (by decide)).2.1 (by decide) (by decide)

/-- C4: on an input whose requests regex captures `(error_name, details)`,
the Python extractor returns a diagnostic whose kind is
`MissingEnvVar details` iff the exception name is `MissingSchema` or the
detail contains `None`, and otherwise `RequestsError "name: detail"`; the
generic error regex plays no part in this branch. -/
theorem python_requests_classification (input error_name details : List Char)
    (hreq : findCaps requestsMatchAt input = some (error_name, details)) :
    ∃ d, parse_python_error input = some d ∧
      (d.error_type = ErrorType.MissingEnvVar details ↔
        (error_name = lit "MissingSchema" ∨ containsSub details (lit "None") = true))
    ∧ (error_name ≠ lit "MissingSchema" → containsSub details (lit "None") = false →
        d.error_type = ErrorType.RequestsError (error_name ++ lit ": " ++ details)) := by
  simp only [parse_python_error, hreq]
  refine ⟨_, rfl, ?_, ?_⟩
  · by_cases hb : (error_name == lit "MissingSchema" || containsSub details (lit "None")) = true
    · simp only [hb, if_true]
      simp only [Bool.or_eq_true, beq_iff_eq] at hb
      simp [hb]
    · simp only [Bool.not_eq_true] at hb
      simp only [hb, Bool.false_eq_true, if_false]
      simp only [Bool.or_eq_false_iff, beq_eq_false_iff_ne] at hb
      constructor
      · intro h
        exact absurd h (by simp)
      · intro h
        rcases h with h | h
        · exact absurd h hb.1
        · rw [hb.2] at h
          exact absurd h (by simp)
  · intro h1 h2
    have hb : (error_name == lit "MissingSchema" || containsSub details (lit "None")) = false := by
      simp [h1, h2]
    simp [hb]

/-- Witness for C4 at a MissingSchema line. -/
theorem python_requests_classification_witness :
    ∃ d, parse_python_error (lit "requests.exceptions.MissingSchema: Invalid URL") = some d ∧
      (d.error_type = ErrorType.MissingEnvVar (lit "Invalid URL") ↔
        (lit "MissingSchema" = lit "MissingSchema" ∨
         containsSub (lit "Invalid URL") (lit "None") = true))
    ∧ (lit "MissingSchema" ≠ lit "MissingSchema" →
        containsSub (lit "Invalid URL") (lit "None") = false →
        d.error_type = ErrorType.RequestsError (lit "MissingSchema" ++ lit ": " ++ lit "Invalid URL")) :=
  python_requests_classification (lit "requests.exceptions.MissingSchema: Invalid URL")
    (lit "MissingSchema") (lit "Invalid URL") (by decide)

/-- C5 counterexample: the undeclared-identifier regex runs on the
lower-cased message, so the payload for a message about `myVar` is
`"myvar"`, not `"myVar"` as the claim states. -/
theorem cpp_undeclared_case_counterexample :
    (parse_cpp_error (lit "main.cpp:8:12: error: 'myVar' was not declared in this scope")).map
        ParsedError.error_type ≠ some (ErrorType.UndeclaredVariable (lit "myVar"))
  ∧ (parse_cpp_error (lit "main.cpp:8:12: error: 'myVar' was not declared in this scope")).map
        ParsedError.error_type = some (ErrorType.UndeclaredVariable (lit "myvar")) := by
  decide

/-- C5 amended: a C++ error message matched by the undeclared-identifier
regex, when the missing-include and missing-semicolon classifications do
not fire, yields `UndeclaredVariable` carrying the name as captured from
the lower-cased message (the original case of the name is folded away). -/
theorem cpp_undeclared_lowercased (message full v : List Char)
    (hinc : (containsSub (toLowerStr message) (lit "is not a member of 'std'") = false ∧
             containsSub (toLowerStr message) (lit "was not declared") = false) ∨
            (findCaps includeMatchAt full = none ∧
             containsSub (toLowerStr message) (lit "vector") = false ∧
             containsSub (toLowerStr message) (lit "string") = false ∧
             containsSub (toLowerStr message) (lit "cout") = false ∧
             containsSub (toLowerStr message) (lit "cin") = false ∧
             containsSub (toLowerStr message) (lit "map") = false ∧
             containsSub (toLowerStr message) (lit "set") = false))
    (hsemi1 : containsSub (toLowerStr message) (lit "expected ';'") = false)
    (hsemi2 : containsSub (toLowerStr message) (lit "expected ';' before") = false)
    (hcap : findCaps undeclAt (toLowerStr message) = some v) :
    detect_cpp_error_type message full = ErrorType.UndeclaredVariable v := by
  rcases hinc with ⟨h1, h2⟩ | ⟨h0, h1, h2, h3, h4, h5, h6⟩
  · simp [detect_cpp_error_type, detect_cpp_rest, h1, h2, hsemi1, hsemi2, hcap]
  · by_cases hg : (containsSub (toLowerStr message) (lit "is not a member of 'std'") ||
        containsSub (toLowerStr message) (lit "was not declared")) = true
    · simp [detect_cpp_error_type, detect_cpp_rest, hg, h0, h1, h2, h3, h4, h5, h6,
            hsemi1, hsemi2, hcap]
    · simp only [Bool.not_eq_true] at hg
      simp [detect_cpp_error_type, detect_cpp_rest, hg, hsemi1, hsemi2, hcap]

/-- Witness for the amended C5 on the repository's own test message. -/
theorem cpp_undeclared_lowercased_witness :
    detect_cpp_error_type (lit "'myVar' was not declared in this scope")
        (lit "main.cpp:8:12: error: 'myVar' was not declared in this scope")
      = ErrorType.UndeclaredVariable (lit "myvar") :=
  cpp_undeclared_lowercased (lit "'myVar' was not declared in this scope")
    (lit "main.cpp:8:12: error: 'myVar' was not declared in this scope")
    (lit "myvar")
    (Or.inr ⟨by decide, by decide, by decide, by decide, by decide, by decide, by decide⟩)
    (by decide) (by decide) (by decide)

/-- C6 counterexample: a Rust message containing both "cannot find" and
"borrow" that the cannot-find identifier regex does not match is classified
`Unknown`, not `BorrowError`, although it is not classified as
`UndeclaredVariable`. -/
theorem rust_borrow_counterexample :
    containsSub (lit "cannot find value of borrow") (lit "borrow") = true
  ∧ findCaps rustVarAt (lit "cannot find value of borrow") = none
  ∧ (parse_rust_error (lit "error[E0599]: cannot find value of borrow\n --> src/main.rs:1:1")).map
        ParsedError.error_type = some (ErrorType.Unknown (lit "cannot find value of borrow"))
  ∧ (parse_rust_error (lit "error[E0599]: cannot find value of borrow\n --> src/main.rs:1:1")).map
        ParsedError.error_type ≠ some (ErrorType.BorrowError (lit "cannot find value of borrow")) := by
  decide

/-- C6 amended: on a Rust input with an error line and a location line,
a message containing "borrow" and not containing "cannot find" yields
`BorrowError message`, with file, line and column from the location line. -/
theorem rust_borrow_classification (input message : List Char) (loc : RustLocCaps)
    (line col : Nat)
    (he : findCaps rustErrAt input = some message)
    (hl : findCaps rustLocAt input = some loc)
    (hline : parseU32 loc.lineDigits = some line)
    (hcol : parseU32 loc.colDigits = some col)
    (hborrow : containsSub message (lit "borrow") = true)
    (hcf : containsSub message (lit "cannot find") = false) :
    parse_rust_error input = some
      { file := loc.file, line := some line, column := some col,
        message := message, error_type := ErrorType.BorrowError message,
        language := Language.Rust } := by
  simp [parse_rust_error, he, hl, hline, hcol, hcf, hborrow]

/-- Witness for the amended C6 on the repository's own borrow-error text. -/
theorem rust_borrow_classification_witness :
    parse_rust_error (lit "error[E0502]: cannot borrow `x` as mutable\n --> src/main.rs:5:10") = some
      { file := lit "src/main.rs", line := some 5, column := some 10,
        message := lit "cannot borrow `x` as mutable",
        error_type := ErrorType.BorrowError (lit "cannot borrow `x` as mutable"),
        language := Language.Rust } :=
  rust_borrow_classification (lit "error[E0502]: cannot borrow `x` as mutable\n --> src/main.rs:5:10")
    (lit "cannot borrow `x` as mutable") ⟨lit "src/main.rs", lit "5", lit "10"⟩ 5 10
    (by decide) (by decide) (by decide) (by decide) (by decide) (by decide)

/-- C7 counterexample: with an overflowing line number the generic JS/TS
branch returns `none` although both its regexes match the input, so
matching of the two regexes alone does not guarantee `some`. -/
theorem js_generic_counterexample :
    (findCaps jsFileMatchAt (lit "a.js:4294967296\nTypeError: boom")).isSome = true
  ∧ (findCaps jsErrorMatchAt (lit "a.js:4294967296\nTypeError: boom")).isSome = true
  ∧ jsGeneric (lit "a.js:4294967296\nTypeError: boom") = none := by
  decide

/-- C7 amended: whenever the file-token regex and the error-name regex each
match anywhere in the input and the captured line number fits in `u32`, the
generic JS/TS branch returns `some`, combining the file, line and optional
column of the file-token match with the classification of the error-name
match; the language is TypeScript iff the matched extension is ts or tsx,
else JavaScript. -/
theorem js_generic_combination (input error_name details : List Char) (fcap : JsFileCaps)
    (line : Nat)
    (hf : findCaps jsFileMatchAt input = some fcap)
    (he : findCaps jsErrorMatchAt input = some (error_name, details))
    (hline : parseU32 fcap.lineDigits = some line) :
    jsGeneric input = some
      { file := fcap.file, line := some line, column := fcap.colDigits.bind parseU32,
        message := error_name ++ lit ": " ++ details,
        error_type :=
          if error_name == lit "SyntaxError" then ErrorType.SyntaxError details
          else if error_name == lit "ReferenceError" then
            match findCaps refVarAt details with
            | some v => ErrorType.UndeclaredVariable v
            | none => ErrorType.Unknown details
          else if error_name == lit "TypeError" then ErrorType.TypeError details
          else ErrorType.Unknown details,
        language :=
          if fcap.ext == lit "ts" || fcap.ext == lit "tsx" then Language.TypeScript
          else Language.JavaScript }
  ∧ ((if fcap.ext == lit "ts" || fcap.ext == lit "tsx" then Language.TypeScript
      else Language.JavaScript) = Language.TypeScript ↔
        (fcap.ext = lit "ts" ∨ fcap.ext = lit "tsx")) := by
  constructor
  · simp only [jsGeneric, hf, he, hline]
  · by_cases hb : (fcap.ext == lit "ts" || fcap.ext == lit "tsx") = true
    · simp only [hb, if_true]
      simp only [Bool.or_eq_true, beq_iff_eq] at hb
      simp [hb]
    · simp only [Bool.not_eq_true] at hb
      simp only [hb, Bool.false_eq_true, if_false]
      simp only [Bool.or_eq_false_iff, beq_eq_false_iff_ne] at hb
      constructor
      · intro h
        exact absurd h (by decide)
      · intro h
        rcases h with h | h
        · exact absurd h hb.1
        · exact absurd h hb.2

/-- Witness for the amended C7 on the repository's ReferenceError test. -/
theorem js_generic_combination_witness :
    jsGeneric (lit "index.js:8:5\nReferenceError: myFunction is not defined") = some
      { file := lit "index.js", line := some 8,
        column := (some (lit "5")).bind parseU32,
        message := lit "ReferenceError" ++ lit ": " ++ lit "myFunction is not defined",
        error_type :=
          if lit "ReferenceError" == lit "SyntaxError" then
            ErrorType.SyntaxError (lit "myFunction is not defined")
          else if lit "ReferenceError" == lit "ReferenceError" then
            match findCaps refVarAt (lit "myFunction is not defined") with
            | some v => ErrorType.UndeclaredVariable v
            | none => ErrorType.Unknown (lit "myFunction is not defined")
          else if lit "ReferenceError" == lit "TypeError" then
            ErrorType.TypeError (lit "myFunction is not defined")
          else ErrorType.Unknown (lit "myFunction is not defined"),
        language :=
          if lit "js" == lit "ts" || lit "js" == lit "tsx" then Language.TypeScript
          else Language.JavaScript } :=
  (js_generic_combination (lit "index.js:8:5\nReferenceError: myFunction is not defined")
    (lit "ReferenceError") (lit "myFunction is not defined")
    ⟨lit "index.js", lit "js", lit "8", some (lit "5")⟩ 8
    (by decide) (by decide) (by decide)).1

/-- C8: the raw-text fallback applies its four substring checks to the
lower-cased input in a fixed order - semicolon markers, then
not-a-member/was-not-declared, then is-not-defined/undeclared, then
unexpected-token/was-never-closed - returning the canned instruction of
the first rule that matches, and `none` when no rule matches. -/
theorem fallback_ordered_rules (t : List Char) :
    ((containsSub (toLowerStr t) (lit "expected ';'") = true ∨
      containsSub (toLowerStr t) (lit "missing semicolon") = true) →
        try_common_patterns t = some semicolonMsg)
  ∧ (containsSub (toLowerStr t) (lit "expected ';'") = false →
     containsSub (toLowerStr t) (lit "missing semicolon") = false →
     (containsSub (toLowerStr t) (lit "is not a member of") = true ∨
      containsSub (toLowerStr t) (lit "was not declared") = true) →
        try_common_patterns t = some importMsg)
  ∧ (containsSub (toLowerStr t) (lit "expected ';'") = false →
     containsSub (toLowerStr t) (lit "missing semicolon") = false →
     containsSub (toLowerStr t) (lit "is not a member of") = false →
     containsSub (toLowerStr t) (lit "was not declared") = false →
     (containsSub (toLowerStr t) (lit "is not defined") = true ∨
      containsSub (toLowerStr t) (lit "undeclared") = true) →
        try_common_patterns t = some undefinedMsg)
  ∧ (containsSub (toLowerStr t) (lit "expected ';'") = false →
     containsSub (toLowerStr t) (lit "missing semicolon") = false →
     containsSub (toLowerStr t) (lit "is not a member of") = false →
     containsSub (toLowerStr t) (lit "was not declared") = false →
     containsSub (toLowerStr t) (lit "is not defined") = false →
     containsSub (toLowerStr t) (lit "undeclared") = false →
     (containsSub (toLowerStr t) (lit "unexpected token") = true ∨
      containsSub (toLowerStr t) (lit "was never closed") = true) →
        try_common_patterns t = some syntaxMsg)
  ∧ (containsSub (toLowerStr t) (lit "expected ';'") = false →
     containsSub (toLowerStr t) (lit "missing semicolon") = false →
     containsSub (toLowerStr t) (lit "is not a member of") = false →
     containsSub (toLowerStr t) (lit "was not declared") = false →
     containsSub (toLowerStr t) (lit "is not defined") = false →
     containsSub (toLowerStr t) (lit "undeclared") = false →
     containsSub (toLowerStr t) (lit "unexpected token") = false →
     containsSub (toLowerStr t) (lit "was never closed") = false →
        try_common_patterns t = none) := by
  refine ⟨fun h => ?_, fun h1 h2 h => ?_, fun h1 h2 h3 h4 h => ?_,
          fun h1 h2 h3 h4 h5 h6 h => ?_, fun h1 h2 h3 h4 h5 h6 h7 h8 => ?_⟩
  · rcases h with h | h <;> simp [try_common_patterns, h]
  · rcases h with h | h <;> simp [try_common_patterns, h1, h2, h]
  · rcases h with h | h <;> simp [try_common_patterns, h1, h2, h3, h4, h]
  · rcases h with h | h <;> simp [try_common_patterns, h1, h2, h3, h4, h5, h6, h]
  · simp [try_common_patterns, h1, h2, h3, h4, h5, h6, h7, h8]

/-- Witness for C8: a text containing both a semicolon marker and an
"unexpected token" marker resolves to the semicolon instruction. -/
theorem fallback_ordered_rules_witness :
    containsSub (toLowerStr (lit "Missing Semicolon near an unexpected token"))
        (lit "unexpected token") = true
  ∧ try_common_patterns (lit "Missing Semicolon near an unexpected token") = some semicolonMsg :=
  ⟨by decide,
   (fallback_ordered_rules (lit "Missing Semicolon near an unexpected token")).1
     (Or.inr (by decide))⟩

/-- C9 counterexample: an overflowing optional column in the generic JS/TS
extractor does not make the extractor return `none`: it returns `some`
with the column dropped to `none`. -/
theorem u32_overflow_counterexample :
    findCaps jsFileMatchAt (lit "b.js:1:4294967296\nTypeError: boom") =
      some ⟨lit "b.js", lit "js", lit "1", some (lit "4294967296")⟩
  ∧ 4294967296 ≤ digitsToNat (lit "4294967296")
  ∧ (parse_js_error (lit "b.js:1:4294967296\nTypeError: boom")).map ParsedError.column
      = some none := by
  decide

/-- C9 amended: a line or column that does not fit in `u32` makes the C++
and Rust extractors return `none`, an overflowing line makes the generic
JS/TS branch return `none`, while an overflowing optional column in the
generic JS/TS branch yields `some` with column `none` (no clamped value);
when the C++ extractor returns `none` the dispatch parser falls through to
the remaining extractors. -/
theorem u32_overflow_behaviour :
    (∀ input cap, cppCaptures input = some cap →
        (4294967296 ≤ digitsToNat cap.lineDigits ∨ 4294967296 ≤ digitsToNat cap.colDigits) →
        parse_cpp_error input = none)
  ∧ (∀ input fcap, findCaps jsFileMatchAt input = some fcap →
        4294967296 ≤ digitsToNat fcap.lineDigits →
        jsGeneric input = none)
  ∧ (∀ input message loc, findCaps rustErrAt input = some message →
        findCaps rustLocAt input = some loc →
        (4294967296 ≤ digitsToNat loc.lineDigits ∨ 4294967296 ≤ digitsToNat loc.colDigits) →
        parse_rust_error input = none)
  ∧ (∀ input fcap error_name details cds line,
        findCaps jsFileMatchAt input = some fcap →
        findCaps jsErrorMatchAt input = some (error_name, details) →
        parseU32 fcap.lineDigits = some line →
        fcap.colDigits = some cds →
        4294967296 ≤ digitsToNat cds →
        ∃ d, jsGeneric input = some d ∧ d.column = none)
  ∧ (∀ input, parse_cpp_error input = none →
        parse_error input = ((parse_python_error input).orElse fun _ =>
          (parse_js_error input).orElse fun _ => parse_rust_error input)) := by
  have hov : ∀ ds : List Char, 4294967296 ≤ digitsToNat ds → parseU32 ds = none := by
    intro ds h
    simp only [parseU32, ite_eq_right_iff]
    omega
  refine ⟨?_, ?_, ?_, ?_, ?_⟩
  · intro input cap hcap h
    rcases h with h | h
    · cases hc : parseU32 cap.colDigits <;>
        simp [parse_cpp_error, hcap, hov _ h, hc]
    · cases hc : parseU32 cap.lineDigits <;>
        simp [parse_cpp_error, hcap, hov _ h, hc]
  · intro input fcap hf h
    cases he : findCaps jsErrorMatchAt input with
    | none => simp [jsGeneric, hf, he]
    | some p =>
      obtain ⟨a, b⟩ := p
      simp [jsGeneric, hf, he, hov _ h]
  · intro input message loc he hlo h
    rcases h with h | h
    · cases hc : parseU32 loc.colDigits <;>
        simp [parse_rust_error, he, hlo, hov _ h, hc]
    · cases hc : parseU32 loc.lineDigits <;>
        simp [parse_rust_error, he, hlo, hov _ h, hc]
  · intro input fcap error_name details cds line hf he hline hcds h
    refine ⟨{ file := fcap.file, line := some line, column := fcap.colDigits.bind parseU32,
              message := error_name ++ lit ": " ++ details,
              error_type :=
                if error_name == lit "SyntaxError" then ErrorType.SyntaxError details
                else if error_name == lit "ReferenceError" then
                  match findCaps refVarAt details with
                  | some v => ErrorType.UndeclaredVariable v
                  | none => ErrorType.Unknown details
                else if error_name == lit "TypeError" then ErrorType.TypeError details
                else ErrorType.Unknown details,
              language :=
                if fcap.ext == lit "ts" || fcap.ext == lit "tsx" then Language.TypeScript
                else Language.JavaScript }, ?_, ?_⟩
    · simp only [jsGeneric, hf, he, hline]
    · simp [hcds, hov _ h]
  · intro input h
    simp only [parse_error, h]
    cases parse_python_error input <;> cases parse_js_error input <;>
      cases parse_rust_error input <;> simp [Option.orElse]

/-- Witness for the amended C9: an overflowing C++ line number yields
`none` from the C++ extractor and the dispatch parser falls through. -/
theorem u32_overflow_behaviour_witness :
    parse_cpp_error (lit "main.cpp:4294967296:1: error: x") = none ∧
    parse_error (lit "main.cpp:4294967296:1: error: x") =
      ((parse_python_error (lit "main.cpp:4294967296:1: error: x")).orElse fun _ =>
        (parse_js_error (lit "main.cpp:4294967296:1: error: x")).orElse fun _ =>
          parse_rust_error (lit "main.cpp:4294967296:1: error: x")) :=
  have h1 : parse_cpp_error (lit "main.cpp:4294967296:1: error: x") = none :=
    u32_overflow_behaviour.1 (lit "main.cpp:4294967296:1: error: x")
      ⟨lit "main.cpp", lit "4294967296", lit "1", lit "x"⟩ (by decide) (Or.inl (by decide))
  ⟨h1, u32_overflow_behaviour.2.2.2.2 (lit "main.cpp:4294967296:1: error: x") h1⟩

/-- C10: a requests-branch diagnostic built without a file/line marker has
file `unknown.py` and no line, and every Python diagnostic, from either
branch, has no column. -/
theorem python_requests_defaults :
    (∀ input error_name details,
        findCaps requestsMatchAt input = some (error_name, details) →
        findCaps pyFileMatchAt input = none →
        ∃ d, parse_python_error input = some d ∧ d.file = lit "unknown.py" ∧ d.line = none)
  ∧ (∀ input d, parse_python_error input = some d → d.column = none) := by
  constructor
  · intro input error_name details hreq hfile
    refine ⟨{ file := lit "unknown.py", line := none, column := none,
              message := lit "requests.exceptions." ++ error_name ++ lit ": " ++ details,
              error_type :=
                if error_name == lit "MissingSchema" || containsSub details (lit "None") then
                  ErrorType.MissingEnvVar details
                else ErrorType.RequestsError (error_name ++ lit ": " ++ details),
              language := Language.Python }, ?_, rfl, rfl⟩
    simp [parse_python_error, hreq, hfile]
  · intro input d h
    simp only [parse_python_error] at h
    split at h
    · simp only [Option.some.injEq] at h
      rw [← h]
    · split at h
      · split at h
        · exact absurd h (by simp)
        · simp only [Option.some.injEq] at h
          rw [← h]
      · exact absurd h (by simp)

/-- Witness for C10 on a markerless requests line. -/
theorem python_requests_defaults_witness :
    ∃ d, parse_python_error (lit "requests.exceptions.ConnectionError: refused") = some d ∧
      d.file = lit "unknown.py" ∧ d.line = none :=
  python_requests_defaults.1 (lit "requests.exceptions.ConnectionError: refused")
    (lit "ConnectionError") (lit "refused") (by decide) (by decide)

end EssentialsCode
